import Mathlib

/-! todo-app: a shallow embedding of `main.go`.

The service keeps one table `todos` and answers four kinds of request
(create, list, update, delete) with a JSON envelope.  The embedding below
follows `main.go` function by function:

* the table is a list of rows in rowid order together with the
  auto-increment counter;
* a handler is a function from the environment of one request (clock
  readings, outcome of the driver call), the store, the response writer and
  the request to the new store and the new response writer;
* the JSON written by `json.NewEncoder(w).Encode` is kept as a JSON value
  tree, so that an omitted field, `null` and `[]` stay distinguishable.

Library behaviour the handlers rely on (`strconv.Atoi`, `url.Values.Get`,
`http.Error`, the `omitempty` rule of `encoding/json`, the exact-path match
of `http.ServeMux`) is written out as small definitions next to the code
that uses it.
-/

namespace TodoApp

/-! ## Data model -/

/-- The Go struct `Todo`. -/
structure Todo where
  id : Int
  title : String
  description : String
  completed : Bool
  createdAt : String
deriving DecidableEq, Repr

/-- The zero value of `Todo`, what `var todo Todo` declares. -/
def Todo.zero : Todo := ⟨0, "", "", false, ""⟩

/-- A Go slice of todos: `var todos []Todo` is the nil slice, and `append`
always yields a non-nil slice. -/
inductive TodoSlice where
  | nil
  | mk (xs : List Todo)
deriving DecidableEq, Repr

/-- Go's `append(todos, todo)`. -/
def TodoSlice.append : TodoSlice → Todo → TodoSlice
  | .nil, t => .mk [t]
  | .mk xs, t => .mk (xs ++ [t])

/-- The values the handlers put in the `Data interface{}` field. -/
inductive Iface where
  | nil
  | todo (t : Todo)
  | todos (s : TodoSlice)
deriving DecidableEq, Repr

/-- The Go struct `Response`; an unset `Message` is `""`, an unset `Data` is
the nil interface. -/
structure Response where
  success : Bool
  message : String
  data : Iface
deriving DecidableEq, Repr

/-! ## JSON encoding -/

/-- JSON values, as a tree. -/
inductive JVal where
  | null
  | bool (b : Bool)
  | num (n : Int)
  | str (s : String)
  | arr (xs : List JVal)
  | obj (fields : List (String × JVal))

/-- Encoding of a `Todo`: the five fields, in declaration order, under their
`json` tags. -/
def Todo.toJSON (t : Todo) : JVal :=
  .obj [("id", .num t.id), ("title", .str t.title), ("description", .str t.description),
        ("completed", .bool t.completed), ("created_at", .str t.createdAt)]

/-- Encoding of a slice: a nil slice is `null`, any other slice an array. -/
def TodoSlice.toJSON : TodoSlice → JVal
  | .nil => .null
  | .mk xs => .arr (xs.map Todo.toJSON)

/-- Encoding of a non-nil interface value: the encoding of what it holds. -/
def Iface.toJSON : Iface → JVal
  | .nil => .null
  | .todo t => t.toJSON
  | .todos s => s.toJSON

/-- Encoding of a `Response`.  `message` carries `omitempty` and is left out
when it is the empty string; `data` carries `omitempty` and is left out when
the interface itself is nil (an interface holding a nil slice is not nil). -/
def Response.toJSON (resp : Response) : JVal :=
  .obj ([("success", .bool resp.success)]
        ++ (if resp.message = "" then [] else [("message", .str resp.message)])
        ++ (match resp.data with
            | .nil => []
            | d => [("data", d.toJSON)]))

/-- Value of a field of a JSON object, if the value is an object and has it. -/
def JVal.field (k : String) : JVal → Option JVal
  | .obj fields => (fields.find? (fun kv => kv.1 == k)).map (fun kv => kv.2)
  | _ => none

/-! ## Response writer -/

/-- One write to the response body. -/
inductive Chunk where
  | text (s : String)
  | json (v : JVal)

/-- State of an `http.ResponseWriter`: the header map, the status line once
it has been written, and the body written so far. -/
structure ResponseWriter where
  header : List (String × String)
  status : Option Nat
  body : List Chunk

/-- A response writer as the server hands it to a handler. -/
def ResponseWriter.new : ResponseWriter := ⟨[], none, []⟩

/-- `Header().Set(k, v)`. -/
def ResponseWriter.setHeader (w : ResponseWriter) (k v : String) : ResponseWriter :=
  { w with header := w.header.filter (fun kv => kv.1 != k) ++ [(k, v)] }

/-- `Header().Del(k)`. -/
def ResponseWriter.delHeader (w : ResponseWriter) (k : String) : ResponseWriter :=
  { w with header := w.header.filter (fun kv => kv.1 != k) }

/-- `Header().Get(k)`: the value, or `""` when the header is not set. -/
def ResponseWriter.getHeader (w : ResponseWriter) (k : String) : String :=
  match w.header.find? (fun kv => kv.1 == k) with
  | some kv => kv.2
  | none => ""

/-- `WriteHeader(code)`: the first call fixes the status. -/
def ResponseWriter.writeHeader (w : ResponseWriter) (code : Nat) : ResponseWriter :=
  match w.status with
  | some _ => w
  | none => { w with status := some code }

/-- `Write`: writes the status line 200 first when none was written. -/
def ResponseWriter.write (w : ResponseWriter) (c : Chunk) : ResponseWriter :=
  let w1 := w.writeHeader 200
  { w1 with body := w1.body ++ [c] }

/-- The status the client receives: the one written, 200 when the handler
returned without writing any. -/
def ResponseWriter.statusCode (w : ResponseWriter) : Nat := w.status.getD 200

/-- `http.Error(w, msg, code)`: a plain-text reply with the given status. -/
def httpError (w : ResponseWriter) (msg : String) (code : Nat) : ResponseWriter :=
  let w := w.delHeader "Content-Length"
  let w := w.setHeader "Content-Type" "text/plain; charset=utf-8"
  let w := w.setHeader "X-Content-Type-Options" "nosniff"
  let w := w.writeHeader code
  w.write (.text (msg ++ "\n"))

/-- `json.NewEncoder(w).Encode(resp)`: one write of the JSON text of `resp`
(followed by a newline). -/
def encode (w : ResponseWriter) (resp : Response) : ResponseWriter :=
  w.write (.json resp.toJSON)

/-! ## Request -/

/-- The parts of `*http.Request` the handlers read.  `query` is the parsed
query string in order of appearance; `body` is the outcome of
`json.NewDecoder(r.Body).Decode(&todo)` on a zero `Todo`: `none` when it
returns an error, otherwise the decoded struct, in which a field absent from
the JSON object keeps its zero value. -/
structure Request where
  method : String
  path : String
  query : List (String × String)
  body : Option Todo

/-- `r.URL.Query().Get(k)`: the first value of `k`, or `""`. -/
def Request.queryGet (r : Request) (k : String) : String :=
  match r.query.find? (fun kv => kv.1 == k) with
  | some kv => kv.2
  | none => ""

/-- Value of an ASCII decimal digit. -/
def digitVal (c : Char) : Option Nat :=
  if '0' ≤ c ∧ c ≤ '9' then some (c.toNat - '0'.toNat) else none

/-- Decimal value of a run of digits, `none` at the first non-digit. -/
def parseDigits : List Char → Nat → Option Nat
  | [], acc => some acc
  | c :: cs, acc =>
    match digitVal c with
    | some d => parseDigits cs (acc * 10 + d)
    | none => none

/-- `strconv.Atoi` for a 64-bit `int`: an optional sign, at least one decimal
digit, nothing else, and a value in the range of `int`; `none` stands for a
returned error. -/
def atoi (s : String) : Option Int :=
  let cs := s.toList
  let neg := cs.head? = some '-'
  let ds := if cs.head? = some '-' ∨ cs.head? = some '+' then cs.tail else cs
  if ds = [] then none
  else
    match parseDigits ds 0 with
    | none => none
    | some n =>
      let v : Int := if neg then -(n : Int) else (n : Int)
      if -(2 ^ 63 : Int) ≤ v ∧ v ≤ 2 ^ 63 - 1 then some v else none

/-! ## Store -/

/-- A row of the table `todos`.  `id` is the primary key and `title` is
`NOT NULL`; the other three columns may hold `NULL`. -/
structure Row where
  id : Int
  title : String
  description : Option String
  completed : Option Bool
  createdAt : Option String
deriving DecidableEq, Repr

/-- The database: the rows of `todos` in rowid order and the counter that
`AUTOINCREMENT` keeps of the largest id ever assigned. -/
structure Store where
  rows : List Row
  seq : Int
deriving DecidableEq, Repr

/-- What one request sees of the outside world.

* `clock k` is the string that the k-th evaluation of
  `time.Now().Format("2006-01-02 15:04:05")` yields.
* `dbErr` is the error that `db.Exec` or `db.Query` itself returns for the
  statement of this request, if any; a statement that returns an error
  changes nothing.
* `nextErr` is `some k` when stepping through the result set runs into an
  error (lock, disk) after `k` rows: `rows.Next()` then returns false and the
  error is left in `rows.Err()`.
* `scanTime t` is the string that `rows.Scan` puts in a `*string` for a
  `DATETIME` column holding the text `t`: the driver hands the column over
  as a time value and `database/sql` formats that value (RFC 3339), so it is
  not the stored text. -/
structure Env where
  clock : Nat → String
  dbErr : Option String
  nextErr : Option Nat
  scanTime : String → String

/-- The id `AUTOINCREMENT` assigns next: one more than the largest id ever
present. -/
def Store.nextId (st : Store) : Int :=
  st.rows.foldl (fun m row => max m row.id) st.seq + 1

/-- The largest rowid, `2^63 - 1`. -/
def maxRowid : Int := 9223372036854775807

/-- `INSERT INTO todos (title, description, completed, created_at) VALUES
(?, ?, ?, ?)`, with `LastInsertId`.  Once the largest rowid has been used
`AUTOINCREMENT` refuses every further insert with `SQLITE_FULL`. -/
def Store.insert (env : Env) (st : Store) (title description : String) (completed : Bool)
    (createdAt : String) : Except String (Store × Int) :=
  match env.dbErr with
  | some e => .error e
  | none =>
    if st.nextId ≤ maxRowid then
      .ok ({ rows := st.rows ++
              [⟨st.nextId, title, some description, some completed, some createdAt⟩],
             seq := st.nextId }, st.nextId)
    else .error "database or disk is full"

/-- `UPDATE todos SET title = ?, description = ?, completed = ? WHERE id = ?`. -/
def Store.update (env : Env) (st : Store) (title description : String) (completed : Bool)
    (id : Int) : Except String Store :=
  match env.dbErr with
  | some e => .error e
  | none =>
    .ok { st with rows := st.rows.map (fun row =>
            if row.id = id then
              { row with title := title, description := some description,
                         completed := some completed }
            else row) }

/-- `DELETE FROM todos WHERE id = ?`. -/
def Store.delete (env : Env) (st : Store) (id : Int) : Except String Store :=
  match env.dbErr with
  | some e => .error e
  | none => .ok { st with rows := st.rows.filter (fun row => row.id != id) }

/-- Order of `ORDER BY created_at`: `NULL` sorts before every string. -/
def keyLe : Option String → Option String → Bool
  | none, _ => true
  | some _, none => false
  | some a, some b => decide (a ≤ b)

/-- Insertion of a row in a list sorted by `created_at` descending, after
the rows that sort equal to it. -/
def insertDesc (row : Row) : List Row → List Row
  | [] => [row]
  | x :: xs => if keyLe row.createdAt x.createdAt then x :: insertDesc row xs else row :: x :: xs

/-- The rows in the order of `ORDER BY created_at DESC`; rows with equal
keys stay in rowid order. -/
def orderByCreatedAtDesc (rows : List Row) : List Row :=
  rows.foldl (fun acc row => insertDesc row acc) []

/-- `db.Query("SELECT id, title, description, completed, created_at FROM todos
ORDER BY created_at DESC")`: the error of the call, or the result set. -/
def Store.queryAll (env : Env) (st : Store) : Except String (List Row) :=
  match env.dbErr with
  | some e => .error e
  | none => .ok (orderByCreatedAtDesc st.rows)

/-- The rows of a result set for which `rows.Next()` returns true: all of
them, or only the first `k` when stepping runs into an error after `k`
rows. -/
def Env.delivered (env : Env) (rows : List Row) : List Row :=
  match env.nextErr with
  | none => rows
  | some k => rows.take k

/-- `rows.Scan(&todo.ID, &todo.Title, &todo.Description, &todo.Completed,
&todo.CreatedAt)`: fails on a `NULL` column, since the destinations are a
plain `string` and a plain `bool`; the `created_at` it yields is the
rendering `env.scanTime` of the stored text. -/
def scan (env : Env) (row : Row) : Option Todo :=
  match row.description, row.completed, row.createdAt with
  | some d, some c, some t => some ⟨row.id, row.title, d, c, env.scanTime t⟩
  | _, _, _ => none

/-! ## Handlers -/

/-- The Go function `enableCORS`. -/
def enableCORS (w : ResponseWriter) : ResponseWriter :=
  let w := w.setHeader "Access-Control-Allow-Origin" "*"
  let w := w.setHeader "Access-Control-Allow-Methods" "GET, POST, PUT, DELETE, OPTIONS"
  w.setHeader "Access-Control-Allow-Headers" "Content-Type"

/-- The Go function `handleOptions`. -/
def handleOptions (w : ResponseWriter) : ResponseWriter :=
  (enableCORS w).writeHeader 200

/-- The Go function `createTodo`. -/
def createTodo (env : Env) (st : Store) (w : ResponseWriter) (r : Request) :
    Store × ResponseWriter :=
  let w := enableCORS w
  if r.method ≠ "POST" then (st, httpError w "Method not allowed" 405)
  else
    match r.body with
    | none => (st, encode w ⟨false, "Invalid JSON", .nil⟩)
    | some todo =>
      if todo.title = "" then (st, encode w ⟨false, "Title is required", .nil⟩)
      else
        match st.insert env todo.title todo.description todo.completed (env.clock 0) with
        | .error e => (st, encode w ⟨false, e, .nil⟩)
        | .ok (st1, id) =>
          let todo := { todo with id := id, createdAt := env.clock 1 }
          (st1, encode w ⟨true, "", .todo todo⟩)

/-- The body of the loop of `getTodos`, over the rows that `rows.Next()`
delivers: a row whose `Scan` fails is skipped, every other row is
appended. -/
def scanAll (env : Env) : List Row → TodoSlice → TodoSlice
  | [], todos => todos
  | row :: rest, todos =>
    match scan env row with
    | none => scanAll env rest todos
    | some todo => scanAll env rest (todos.append todo)

/-- The Go function `getTodos`.  The loop ends when `rows.Next()` returns
false, at the end of the result set or at an error; `rows.Err()` is not
read, so the reply is the same in both cases. -/
def getTodos (env : Env) (st : Store) (w : ResponseWriter) (r : Request) :
    Store × ResponseWriter :=
  let w := enableCORS w
  if r.method ≠ "GET" then (st, httpError w "Method not allowed" 405)
  else
    match st.queryAll env with
    | .error e => (st, encode w ⟨false, e, .nil⟩)
    | .ok rows =>
      let todos := scanAll env (env.delivered rows) .nil
      (st, encode w ⟨true, "", .todos todos⟩)

/-- The Go function `updateTodo`. -/
def updateTodo (env : Env) (st : Store) (w : ResponseWriter) (r : Request) :
    Store × ResponseWriter :=
  let w := enableCORS w
  if r.method ≠ "PUT" then (st, httpError w "Method not allowed" 405)
  else
    let idStr := r.queryGet "id"
    if idStr = "" then (st, encode w ⟨false, "ID is required", .nil⟩)
    else
      match atoi idStr with
      | none => (st, encode w ⟨false, "Invalid ID", .nil⟩)
      | some id =>
        match r.body with
        | none => (st, encode w ⟨false, "Invalid JSON", .nil⟩)
        | some todo =>
          match st.update env todo.title todo.description todo.completed id with
          | .error e => (st, encode w ⟨false, e, .nil⟩)
          | .ok st1 =>
            let todo := { todo with id := id }
            (st1, encode w ⟨true, "", .todo todo⟩)

/-- The Go function `deleteTodo`. -/
def deleteTodo (env : Env) (st : Store) (w : ResponseWriter) (r : Request) :
    Store × ResponseWriter :=
  let w := enableCORS w
  if r.method ≠ "DELETE" then (st, httpError w "Method not allowed" 405)
  else
    let idStr := r.queryGet "id"
    if idStr = "" then (st, encode w ⟨false, "ID is required", .nil⟩)
    else
      match atoi idStr with
      | none => (st, encode w ⟨false, "Invalid ID", .nil⟩)
      | some id =>
        match st.delete env id with
        | .error e => (st, encode w ⟨false, e, .nil⟩)
        | .ok st1 => (st1, encode w ⟨true, "Todo deleted successfully", .nil⟩)

/-! ## Router -/

/-- The closure registered on `/api/todos`. -/
def todosRoute (env : Env) (st : Store) (w : ResponseWriter) (r : Request) :
    Store × ResponseWriter :=
  if r.method = "GET" then getTodos env st w r
  else if r.method = "POST" then createTodo env st w r
  else if r.method = "OPTIONS" then (st, handleOptions w)
  else (st, httpError w "Method not allowed" 405)

/-- The closure registered on `/api/todos/update`. -/
def updateRoute (env : Env) (st : Store) (w : ResponseWriter) (r : Request) :
    Store × ResponseWriter :=
  if r.method = "OPTIONS" then (st, handleOptions w)
  else updateTodo env st w r

/-- The closure registered on `/api/todos/delete`. -/
def deleteRoute (env : Env) (st : Store) (w : ResponseWriter) (r : Request) :
    Store × ResponseWriter :=
  if r.method = "OPTIONS" then (st, handleOptions w)
  else deleteTodo env st w r

/-- The three patterns `main` registers with `http.HandleFunc`. -/
inductive Pattern where
  | todos
  | todosUpdate
  | todosDelete
deriving DecidableEq, Repr

/-- The text of a registered pattern. -/
def Pattern.path : Pattern → String
  | .todos => "/api/todos"
  | .todosUpdate => "/api/todos/update"
  | .todosDelete => "/api/todos/delete"

/-- The closure registered on a pattern. -/
def Pattern.handler : Pattern → Env → Store → ResponseWriter → Request → Store × ResponseWriter
  | .todos => todosRoute
  | .todosUpdate => updateRoute
  | .todosDelete => deleteRoute

/-- Pattern matching of the default `http.ServeMux`: a pattern that does not
end in a slash matches exactly its own path.  `none` means that no handler
of this program runs and the library answers on its own. -/
def mux (path : String) : Option Pattern :=
  [Pattern.todos, Pattern.todosUpdate, Pattern.todosDelete].find? (fun p => p.path == path)

/-- One request served by the program: the new store and the response, or
`none` when the path matches no registered pattern. -/
def serve (env : Env) (st : Store) (r : Request) : Option (Store × ResponseWriter) :=
  match mux r.path with
  | some p => some (p.handler env st ResponseWriter.new r)
  | none => none

/-! ## Predicates used in the statements -/

/-- The writer holds a complete envelope reply: status 200 and a body that
is exactly the JSON encoding of `resp`. -/
def Replies (w : ResponseWriter) (resp : Response) : Prop :=
  w.status = some 200 ∧ w.statusCode = 200 ∧ w.body = [Chunk.json resp.toJSON]

/-- The primary key constraint: no two rows share an id. -/
def Store.UniqueIds (st : Store) : Prop := (st.rows.map Row.id).Nodup

/-- No row of the table has an empty title. -/
def Store.NoEmptyTitle (st : Store) : Prop := ∀ row ∈ st.rows, row.title ≠ ""

/-- The writer carries the three cross-origin headers set by `enableCORS`. -/
def HasCORS (w : ResponseWriter) : Prop :=
  w.getHeader "Access-Control-Allow-Origin" = "*" ∧
  w.getHeader "Access-Control-Allow-Methods" = "GET, POST, PUT, DELETE, OPTIONS" ∧
  w.getHeader "Access-Control-Allow-Headers" = "Content-Type"

/-! ## Basic facts about the response writer -/

theorem enableCORS_body (w : ResponseWriter) : (enableCORS w).body = w.body := rfl

theorem enableCORS_status (w : ResponseWriter) : (enableCORS w).status = w.status := rfl

theorem encode_body (w : ResponseWriter) (resp : Response) :
    (encode w resp).body = w.body ++ [Chunk.json resp.toJSON] := by
  unfold encode ResponseWriter.write ResponseWriter.writeHeader
  cases h : w.status <;> simp [h]

theorem encode_status (w : ResponseWriter) (resp : Response) (h : w.status = none) :
    (encode w resp).status = some 200 := by
  unfold encode ResponseWriter.write ResponseWriter.writeHeader
  simp [h]

theorem encode_replies (w : ResponseWriter) (resp : Response) (hs : w.status = none)
    (hb : w.body = []) : Replies (encode (enableCORS w) resp) resp := by
  have h1 : (encode (enableCORS w) resp).status = some 200 :=
    encode_status _ _ (by rw [enableCORS_status, hs])
  refine ⟨h1, ?_, ?_⟩
  · simp [ResponseWriter.statusCode, h1]
  · rw [encode_body, enableCORS_body, hb]; rfl

theorem atoi_empty : atoi "" = none := by decide

/-! ## Validation failures leave the store alone -/

/-- C1: a POST to createTodo whose body decodes and whose title is empty or
absent is answered with the envelope success=false, message "Title is
required", and the store after the call is the store before it. -/
theorem createTodo_empty_title_rejected (env : Env) (st : Store) (w : ResponseWriter)
    (r : Request) (todo : Todo) (hm : r.method = "POST") (hb : r.body = some todo)
    (ht : todo.title = "") :
    (createTodo env st w r).1 = st ∧
    (createTodo env st w r).2 = encode (enableCORS w) ⟨false, "Title is required", .nil⟩ ∧
    (createTodo env st w r).2.body = w.body ++
      [Chunk.json (.obj [("success", .bool false), ("message", .str "Title is required")])] := by
  have h : createTodo env st w r
      = (st, encode (enableCORS w) ⟨false, "Title is required", .nil⟩) := by
    simp [createTodo, hm, hb, ht]
  rw [h]
  refine ⟨rfl, rfl, ?_⟩
  rw [encode_body, enableCORS_body]
  rfl

theorem createTodo_empty_title_rejected_witness :
    (createTodo ⟨fun _ => "2024-01-01 00:00:00", none, none, fun s => s⟩ ⟨[⟨1, "a", some "", some false, some "t"⟩], 1⟩
        ResponseWriter.new ⟨"POST", "/api/todos", [], some Todo.zero⟩).1
      = ⟨[⟨1, "a", some "", some false, some "t"⟩], 1⟩ :=
  (createTodo_empty_title_rejected ⟨fun _ => "2024-01-01 00:00:00", none, none, fun s => s⟩
    ⟨[⟨1, "a", some "", some false, some "t"⟩], 1⟩ ResponseWriter.new
    ⟨"POST", "/api/todos", [], some Todo.zero⟩ Todo.zero rfl rfl rfl).1

/-- C8: in updateTodo (on PUT) and deleteTodo (on DELETE) an absent or empty
id is answered "ID is required" and a non-empty id that Atoi rejects is
answered "Invalid ID", both with success=false and the store unchanged; in
updateTodo this holds whatever the body is, so the id check comes first. -/
theorem id_validation (env : Env) (st : Store) (w : ResponseWriter) (r : Request) :
    (r.method = "PUT" → r.queryGet "id" = "" →
      updateTodo env st w r = (st, encode (enableCORS w) ⟨false, "ID is required", .nil⟩) ∧
      (updateTodo env st w r).2.body = w.body ++
        [Chunk.json (.obj [("success", .bool false), ("message", .str "ID is required")])]) ∧
    (r.method = "PUT" → r.queryGet "id" ≠ "" → atoi (r.queryGet "id") = none →
      updateTodo env st w r = (st, encode (enableCORS w) ⟨false, "Invalid ID", .nil⟩) ∧
      (updateTodo env st w r).2.body = w.body ++
        [Chunk.json (.obj [("success", .bool false), ("message", .str "Invalid ID")])]) ∧
    (r.method = "DELETE" → r.queryGet "id" = "" →
      deleteTodo env st w r = (st, encode (enableCORS w) ⟨false, "ID is required", .nil⟩) ∧
      (deleteTodo env st w r).2.body = w.body ++
        [Chunk.json (.obj [("success", .bool false), ("message", .str "ID is required")])]) ∧
    (r.method = "DELETE" → r.queryGet "id" ≠ "" → atoi (r.queryGet "id") = none →
      deleteTodo env st w r = (st, encode (enableCORS w) ⟨false, "Invalid ID", .nil⟩) ∧
      (deleteTodo env st w r).2.body = w.body ++
        [Chunk.json (.obj [("success", .bool false), ("message", .str "Invalid ID")])]) := by
  refine ⟨?_, ?_, ?_, ?_⟩
  · intro hm hq
    have h : updateTodo env st w r
        = (st, encode (enableCORS w) ⟨false, "ID is required", .nil⟩) := by
      simp [updateTodo, hm, hq]
    rw [h]
    exact ⟨rfl, by rw [encode_body, enableCORS_body]; rfl⟩
  · intro hm hq ha
    have h : updateTodo env st w r
        = (st, encode (enableCORS w) ⟨false, "Invalid ID", .nil⟩) := by
      simp [updateTodo, hm, hq, ha]
    rw [h]
    exact ⟨rfl, by rw [encode_body, enableCORS_body]; rfl⟩
  · intro hm hq
    have h : deleteTodo env st w r
        = (st, encode (enableCORS w) ⟨false, "ID is required", .nil⟩) := by
      simp [deleteTodo, hm, hq]
    rw [h]
    exact ⟨rfl, by rw [encode_body, enableCORS_body]; rfl⟩
  · intro hm hq ha
    have h : deleteTodo env st w r
        = (st, encode (enableCORS w) ⟨false, "Invalid ID", .nil⟩) := by
      simp [deleteTodo, hm, hq, ha]
    rw [h]
    exact ⟨rfl, by rw [encode_body, enableCORS_body]; rfl⟩

theorem id_validation_witness :
    (updateTodo ⟨fun _ => "", none, none, fun s => s⟩ ⟨[⟨1, "a", some "", some false, some "t"⟩], 1⟩
        ResponseWriter.new ⟨"PUT", "/api/todos/update", [], none⟩).1
      = ⟨[⟨1, "a", some "", some false, some "t"⟩], 1⟩ ∧
    (deleteTodo ⟨fun _ => "", none, none, fun s => s⟩ ⟨[⟨1, "a", some "", some false, some "t"⟩], 1⟩
        ResponseWriter.new ⟨"DELETE", "/api/todos/delete", [("id", "1x")], none⟩).1
      = ⟨[⟨1, "a", some "", some false, some "t"⟩], 1⟩ :=
  ⟨congrArg Prod.fst ((id_validation ⟨fun _ => "", none, none, fun s => s⟩
      ⟨[⟨1, "a", some "", some false, some "t"⟩], 1⟩ ResponseWriter.new
      ⟨"PUT", "/api/todos/update", [], none⟩).1 rfl rfl).1,
   congrArg Prod.fst ((id_validation ⟨fun _ => "", none, none, fun s => s⟩
      ⟨[⟨1, "a", some "", some false, some "t"⟩], 1⟩ ResponseWriter.new
      ⟨"DELETE", "/api/todos/delete", [("id", "1x")], none⟩).2.2.2 rfl (by decide)
      (by decide)).1⟩

/-! ## Every handler reply on its own method is an envelope with status 200 -/

theorem createTodo_replies (env : Env) (st : Store) (w : ResponseWriter) (r : Request)
    (hs : w.status = none) (hb : w.body = []) (hm : r.method = "POST") :
    ∃ resp, Replies (createTodo env st w r).2 resp ∧
      ((r.body = none ∨ (∃ t, r.body = some t ∧ t.title = "") ∨ env.dbErr ≠ none) →
        resp.success = false) := by
  unfold createTodo
  simp only [hm, ne_eq, not_true_eq_false, if_false]
  cases hbody : r.body with
  | none => exact ⟨_, encode_replies w _ hs hb, fun _ => rfl⟩
  | some todo =>
    by_cases ht : todo.title = ""
    · simp only [ht, if_true]
      exact ⟨_, encode_replies w _ hs hb, fun _ => rfl⟩
    · simp only [ht, if_false]
      cases he : env.dbErr with
      | some e =>
        simp only [Store.insert, he]
        exact ⟨_, encode_replies w _ hs hb, fun _ => rfl⟩
      | none =>
        by_cases hfull : st.nextId ≤ maxRowid
        · simp only [Store.insert, he, hfull, if_true]
          refine ⟨_, encode_replies w _ hs hb, ?_⟩
          rintro (h | ⟨t, h1, h2⟩ | h)
          · cases h
          · cases h1; exact absurd h2 ht
          · exact absurd trivial h
        · simp only [Store.insert, he, hfull, if_false]
          exact ⟨_, encode_replies w _ hs hb, fun _ => rfl⟩

theorem getTodos_replies (env : Env) (st : Store) (w : ResponseWriter) (r : Request)
    (hs : w.status = none) (hb : w.body = []) (hm : r.method = "GET") :
    ∃ resp, Replies (getTodos env st w r).2 resp ∧ (env.dbErr ≠ none → resp.success = false) := by
  unfold getTodos
  simp only [hm, ne_eq, not_true_eq_false, if_false]
  cases he : env.dbErr with
  | some e =>
    simp only [Store.queryAll, he]
    exact ⟨_, encode_replies w _ hs hb, fun _ => rfl⟩
  | none =>
    simp only [Store.queryAll, he]
    exact ⟨_, encode_replies w _ hs hb, fun h => absurd trivial h⟩

theorem updateTodo_replies (env : Env) (st : Store) (w : ResponseWriter) (r : Request)
    (hs : w.status = none) (hb : w.body = []) (hm : r.method = "PUT") :
    ∃ resp, Replies (updateTodo env st w r).2 resp ∧
      ((r.queryGet "id" = "" ∨ atoi (r.queryGet "id") = none ∨ r.body = none ∨
          env.dbErr ≠ none) → resp.success = false) := by
  unfold updateTodo
  simp only [hm, ne_eq, not_true_eq_false, if_false]
  by_cases hq : r.queryGet "id" = ""
  · simp only [hq, if_true]
    exact ⟨_, encode_replies w _ hs hb, fun _ => rfl⟩
  · simp only [hq, if_false]
    cases ha : atoi (r.queryGet "id") with
    | none => exact ⟨_, encode_replies w _ hs hb, fun _ => rfl⟩
    | some id =>
      cases hbody : r.body with
      | none => exact ⟨_, encode_replies w _ hs hb, fun _ => rfl⟩
      | some todo =>
        cases he : env.dbErr with
        | some e =>
          simp only [Store.update, he]
          exact ⟨_, encode_replies w _ hs hb, fun _ => rfl⟩
        | none =>
          simp only [Store.update, he]
          refine ⟨_, encode_replies w _ hs hb, ?_⟩
          rintro (h | h | h | h)
          · exact h.elim
          · cases h
          · cases h
          · exact absurd trivial h

theorem deleteTodo_replies (env : Env) (st : Store) (w : ResponseWriter) (r : Request)
    (hs : w.status = none) (hb : w.body = []) (hm : r.method = "DELETE") :
    ∃ resp, Replies (deleteTodo env st w r).2 resp ∧
      ((r.queryGet "id" = "" ∨ atoi (r.queryGet "id") = none ∨ env.dbErr ≠ none) →
        resp.success = false) := by
  unfold deleteTodo
  simp only [hm, ne_eq, not_true_eq_false, if_false]
  by_cases hq : r.queryGet "id" = ""
  · simp only [hq, if_true]
    exact ⟨_, encode_replies w _ hs hb, fun _ => rfl⟩
  · simp only [hq, if_false]
    cases ha : atoi (r.queryGet "id") with
    | none => exact ⟨_, encode_replies w _ hs hb, fun _ => rfl⟩
    | some id =>
      cases he : env.dbErr with
      | some e =>
        simp only [Store.delete, he]
        exact ⟨_, encode_replies w _ hs hb, fun _ => rfl⟩
      | none =>
        simp only [Store.delete, he]
        refine ⟨_, encode_replies w _ hs hb, ?_⟩
        rintro (h | h | h)
        · exact h.elim
        · cases h
        · exact absurd trivial h

/-- A request that reaches createTodo as POST, getTodos as GET, updateTodo
as PUT or deleteTodo as DELETE, on a writer nothing has been written to, is
answered with status 200 and a body that is exactly one response envelope,
whatever the body, the query and the outcome of the store call.  The
envelope has success=false for bad JSON, for a missing or non-numeric id,
for an empty title in createTodo and for an error returned by `db.Exec` or
`db.Query`. -/
theorem own_method_always_200_envelope (env : Env) (st : Store) (w : ResponseWriter)
    (r : Request) (hs : w.status = none) (hb : w.body = []) :
    (r.method = "POST" →
      ∃ resp, Replies (createTodo env st w r).2 resp ∧
        ((r.body = none ∨ (∃ t, r.body = some t ∧ t.title = "") ∨ env.dbErr ≠ none) →
          resp.success = false)) ∧
    (r.method = "GET" →
      ∃ resp, Replies (getTodos env st w r).2 resp ∧
        (env.dbErr ≠ none → resp.success = false)) ∧
    (r.method = "PUT" →
      ∃ resp, Replies (updateTodo env st w r).2 resp ∧
        ((r.queryGet "id" = "" ∨ atoi (r.queryGet "id") = none ∨ r.body = none ∨
            env.dbErr ≠ none) → resp.success = false)) ∧
    (r.method = "DELETE" →
      ∃ resp, Replies (deleteTodo env st w r).2 resp ∧
        ((r.queryGet "id" = "" ∨ atoi (r.queryGet "id") = none ∨ env.dbErr ≠ none) →
          resp.success = false)) :=
  ⟨createTodo_replies env st w r hs hb, getTodos_replies env st w r hs hb,
   updateTodo_replies env st w r hs hb, deleteTodo_replies env st w r hs hb⟩

theorem own_method_always_200_envelope_witness :
    ∃ resp, Replies (createTodo ⟨fun _ => "2024-01-01 00:00:00", some "disk I/O error", none, fun s => s⟩
        ⟨[], 0⟩ ResponseWriter.new
        ⟨"POST", "/api/todos", [], some ⟨0, "a", "", false, ""⟩⟩).2 resp ∧
      resp.success = false :=
  match (own_method_always_200_envelope ⟨fun _ => "2024-01-01 00:00:00", some "disk I/O error", none, fun s => s⟩
      ⟨[], 0⟩ ResponseWriter.new ⟨"POST", "/api/todos", [], some ⟨0, "a", "", false, ""⟩⟩
      rfl rfl).1 rfl with
  | ⟨resp, h1, h2⟩ => ⟨resp, h1, h2 (Or.inr (Or.inr (by simp)))⟩

/-! ## Delete and update touch one row -/

theorem filter_unique_id (id : Int) :
    ∀ rows : List Row, (rows.map Row.id).Nodup → id ∈ rows.map Row.id →
      ∃ before row after, rows = before ++ row :: after ∧ row.id = id ∧
        rows.filter (fun x => x.id != id) = before ++ after ∧
        ∀ x ∈ before ++ after, x.id ≠ id
  | [], _, hin => by simp at hin
  | x :: xs, hnd, hin => by
    rw [List.map_cons, List.nodup_cons] at hnd
    by_cases hx : x.id = id
    · have hall : ∀ y ∈ xs, y.id ≠ id := by
        intro y hy hyid
        exact hnd.1 (List.mem_map.mpr ⟨y, hy, by rw [hyid, hx]⟩)
      refine ⟨[], x, xs, rfl, hx, ?_, ?_⟩
      · rw [List.filter_cons_of_neg (by simp [hx])]
        simp only [List.nil_append]
        exact List.filter_eq_self.mpr (fun y hy => by simpa using hall y hy)
      · simpa using hall
    · have hin2 : id ∈ xs.map Row.id := by
        rw [List.map_cons, List.mem_cons] at hin
        rcases hin with h | h
        · exact absurd h.symm hx
        · exact h
      obtain ⟨before, row, after, h1, h2, h3, h4⟩ := filter_unique_id id xs hnd.2 hin2
      refine ⟨x :: before, row, after, by rw [h1]; rfl, h2, ?_, ?_⟩
      · rw [List.filter_cons_of_pos (by simpa using hx), h3]; rfl
      · intro y hy
        rw [List.cons_append, List.mem_cons] at hy
        rcases hy with h | h
        · rw [h]; exact hx
        · exact h4 y h

theorem atoi_some_ne_empty (s : String) (id : Int) (h : atoi s = some id) : s ≠ "" := by
  intro hs
  rw [hs, atoi_empty] at h
  cases h

theorem deleteTodo_ok (env : Env) (st : Store) (w : ResponseWriter) (r : Request) (id : Int)
    (hm : r.method = "DELETE") (hid : atoi (r.queryGet "id") = some id)
    (he : env.dbErr = none) :
    deleteTodo env st w r
      = ({ st with rows := st.rows.filter (fun row => row.id != id) },
         encode (enableCORS w) ⟨true, "Todo deleted successfully", .nil⟩) := by
  have hq : r.queryGet "id" ≠ "" := atoi_some_ne_empty _ _ hid
  simp [deleteTodo, hm, hq, hid, Store.delete, he]

/-- C7: on a store with unique ids, a DELETE whose store call succeeds and
whose id is present removes exactly the one row with that id and keeps the
other rows, in order, as they were; a second DELETE with the same id leaves
the store as the first one left it and is answered success=true with
message "Todo deleted successfully". -/
theorem deleteTodo_removes_one_row_idempotent (env1 env2 : Env) (st : Store)
    (w1 w2 : ResponseWriter) (r1 r2 : Request) (id : Int)
    (hu : st.UniqueIds) (hin : id ∈ st.rows.map Row.id)
    (hm1 : r1.method = "DELETE") (hid1 : atoi (r1.queryGet "id") = some id)
    (he1 : env1.dbErr = none)
    (hm2 : r2.method = "DELETE") (hid2 : atoi (r2.queryGet "id") = some id)
    (he2 : env2.dbErr = none) :
    (∃ before row after, st.rows = before ++ row :: after ∧ row.id = id ∧
        (deleteTodo env1 st w1 r1).1.rows = before ++ after ∧
        ∀ x ∈ before ++ after, x.id ≠ id) ∧
    (deleteTodo env1 st w1 r1).1.rows.length + 1 = st.rows.length ∧
    (deleteTodo env1 st w1 r1).1.seq = st.seq ∧
    (deleteTodo env2 (deleteTodo env1 st w1 r1).1 w2 r2).1 = (deleteTodo env1 st w1 r1).1 ∧
    (deleteTodo env2 (deleteTodo env1 st w1 r1).1 w2 r2).2.body = w2.body ++
      [Chunk.json (.obj [("success", .bool true),
        ("message", .str "Todo deleted successfully")])] := by
  rw [deleteTodo_ok env2 _ w2 r2 id hm2 hid2 he2, deleteTodo_ok env1 st w1 r1 id hm1 hid1 he1]
  obtain ⟨before, row, after, h1, h2, h3, h4⟩ := filter_unique_id id st.rows hu hin
  refine ⟨⟨before, row, after, h1, h2, h3, h4⟩, ?_, rfl, ?_, ?_⟩
  · show (st.rows.filter (fun row => row.id != id)).length + 1 = st.rows.length
    rw [h3, h1]
    simp only [List.length_append, List.length_cons]
    omega
  · show Store.mk ((st.rows.filter (fun row => row.id != id)).filter (fun row => row.id != id))
        st.seq = Store.mk (st.rows.filter (fun row => row.id != id)) st.seq
    rw [List.filter_filter]
    simp
  · rw [encode_body, enableCORS_body]
    rfl

theorem deleteTodo_removes_one_row_idempotent_witness :
    (deleteTodo ⟨fun _ => "", none, none, fun s => s⟩
        ⟨[⟨1, "a", some "", some false, some "t"⟩, ⟨2, "b", some "", some true, some "u"⟩], 2⟩
        ResponseWriter.new ⟨"DELETE", "/api/todos/delete", [("id", "1")], none⟩).1.rows.length + 1
      = 2 :=
  (deleteTodo_removes_one_row_idempotent ⟨fun _ => "", none, none, fun s => s⟩ ⟨fun _ => "", none, none, fun s => s⟩
    ⟨[⟨1, "a", some "", some false, some "t"⟩, ⟨2, "b", some "", some true, some "u"⟩], 2⟩
    ResponseWriter.new ResponseWriter.new
    ⟨"DELETE", "/api/todos/delete", [("id", "1")], none⟩
    ⟨"DELETE", "/api/todos/delete", [("id", "1")], none⟩ 1
    (by unfold Store.UniqueIds; decide) (by decide) rfl (by decide) rfl rfl (by decide) rfl).2.1

theorem updateTodo_ok (env : Env) (st : Store) (w : ResponseWriter) (r : Request) (id : Int)
    (todo : Todo) (hm : r.method = "PUT") (hid : atoi (r.queryGet "id") = some id)
    (hb : r.body = some todo) (he : env.dbErr = none) :
    updateTodo env st w r
      = ({ st with rows := st.rows.map (fun row =>
              if row.id = id then
                { row with title := todo.title, description := some todo.description,
                           completed := some todo.completed }
              else row) },
         encode (enableCORS w) ⟨true, "", .todo { todo with id := id }⟩) := by
  have hq : r.queryGet "id" ≠ "" := atoi_some_ne_empty _ _ hid
  simp [updateTodo, hm, hq, hid, hb, Store.update, he]

theorem map_update_frame (id : Int) (title : String) (description : String)
    (completed : Bool) :
    ∀ rows : List Row,
      List.Forall₂
        (fun old new => new.id = old.id ∧ new.createdAt = old.createdAt ∧
          (old.id ≠ id → new = old) ∧
          (old.id = id → new.title = title ∧ new.description = some description ∧
            new.completed = some completed))
        rows
        (rows.map (fun row =>
          if row.id = id then
            { row with title := title, description := some description,
                       completed := some completed }
          else row))
  | [] => List.Forall₂.nil
  | x :: xs => by
    rw [List.map_cons]
    refine List.Forall₂.cons ?_ (map_update_frame id title description completed xs)
    by_cases hx : x.id = id
    · simp [hx]
    · simp [hx]

/-- C9: a PUT to updateTodo with an integer id and a body that decodes, whose
store call succeeds, keeps the number and order of the rows, keeps the id and
created_at of every row, keeps every row with another id as it was, and
gives the row with that id the title, description and completed of the
body.  When no row has the id the store is unchanged.  In both cases the
envelope is success=true with data carrying the supplied id. -/
theorem updateTodo_frame (env : Env) (st : Store) (w : ResponseWriter) (r : Request)
    (id : Int) (todo : Todo) (hm : r.method = "PUT")
    (hid : atoi (r.queryGet "id") = some id) (hb : r.body = some todo)
    (he : env.dbErr = none) :
    List.Forall₂
      (fun old new => new.id = old.id ∧ new.createdAt = old.createdAt ∧
        (old.id ≠ id → new = old) ∧
        (old.id = id → new.title = todo.title ∧ new.description = some todo.description ∧
          new.completed = some todo.completed))
      st.rows (updateTodo env st w r).1.rows ∧
    (updateTodo env st w r).1.rows.length = st.rows.length ∧
    (updateTodo env st w r).1.seq = st.seq ∧
    ((∀ row ∈ st.rows, row.id ≠ id) → (updateTodo env st w r).1 = st) ∧
    (updateTodo env st w r).2.body = w.body ++
      [Chunk.json (.obj [("success", .bool true),
        ("data", .obj [("id", .num id), ("title", .str todo.title),
          ("description", .str todo.description), ("completed", .bool todo.completed),
          ("created_at", .str todo.createdAt)])])] := by
  rw [updateTodo_ok env st w r id todo hm hid hb he]
  refine ⟨map_update_frame id todo.title todo.description todo.completed st.rows, ?_, rfl,
    ?_, ?_⟩
  · simp
  · intro hno
    show Store.mk _ st.seq = st
    have hmap : st.rows.map (fun row =>
        if row.id = id then
          { row with title := todo.title, description := some todo.description,
                     completed := some todo.completed }
        else row) = st.rows := by
      conv_rhs => rw [← List.map_id st.rows]
      apply List.map_congr_left
      intro row hrow
      simp [hno row hrow]
    rw [hmap]
  · rw [encode_body, enableCORS_body]
    rfl

theorem updateTodo_frame_witness :
    (updateTodo ⟨fun _ => "", none, none, fun s => s⟩
        ⟨[⟨1, "a", some "", some false, some "t"⟩, ⟨2, "b", some "", some true, some "u"⟩], 2⟩
        ResponseWriter.new
        ⟨"PUT", "/api/todos/update", [("id", "7")], some ⟨0, "z", "d", true, ""⟩⟩).1
      = ⟨[⟨1, "a", some "", some false, some "t"⟩, ⟨2, "b", some "", some true, some "u"⟩], 2⟩ :=
  (updateTodo_frame ⟨fun _ => "", none, none, fun s => s⟩
    ⟨[⟨1, "a", some "", some false, some "t"⟩, ⟨2, "b", some "", some true, some "u"⟩], 2⟩
    ResponseWriter.new
    ⟨"PUT", "/api/todos/update", [("id", "7")], some ⟨0, "z", "d", true, ""⟩⟩ 7
    ⟨0, "z", "d", true, ""⟩ rfl (by decide) rfl rfl).2.2.2.1 (by decide)

/-! ## The router -/

/-- C4, with the paths as `main` registers them: the handlers are on `/api/todos`,
`/api/todos/update` and `/api/todos/delete`; a GET on `/api/todos` runs
getTodos, a POST on `/api/todos` runs createTodo, a PUT on
`/api/todos/update` runs updateTodo and a DELETE on `/api/todos/delete` runs
deleteTodo, each on a fresh response writer. -/
theorem router_dispatch (env : Env) (st : Store) (query : List (String × String))
    (body : Option Todo) :
    mux "/api/todos" = some Pattern.todos ∧
    mux "/api/todos/update" = some Pattern.todosUpdate ∧
    mux "/api/todos/delete" = some Pattern.todosDelete ∧
    serve env st ⟨"GET", "/api/todos", query, body⟩
      = some (getTodos env st ResponseWriter.new ⟨"GET", "/api/todos", query, body⟩) ∧
    serve env st ⟨"POST", "/api/todos", query, body⟩
      = some (createTodo env st ResponseWriter.new ⟨"POST", "/api/todos", query, body⟩) ∧
    serve env st ⟨"PUT", "/api/todos/update", query, body⟩
      = some (updateTodo env st ResponseWriter.new
          ⟨"PUT", "/api/todos/update", query, body⟩) ∧
    serve env st ⟨"DELETE", "/api/todos/delete", query, body⟩
      = some (deleteTodo env st ResponseWriter.new
          ⟨"DELETE", "/api/todos/delete", query, body⟩) :=
  ⟨by decide, by decide, by decide, rfl, rfl, rfl, rfl⟩

/-- C4 does not hold for the unprefixed paths: no handler is registered on `/todos`,
`/todos/update` or `/todos/delete`, so a GET or POST on `/todos`, a PUT on
`/todos/update` and a DELETE on `/todos/delete` reach no handler of the
program. -/
theorem unprefixed_paths_reach_no_handler :
    mux "/todos" = none ∧ mux "/todos/update" = none ∧ mux "/todos/delete" = none ∧
    serve ⟨fun _ => "2024-01-01 10:00:00", none, none, fun s => s⟩ ⟨[], 0⟩ ⟨"GET", "/todos", [], none⟩ = none ∧
    serve ⟨fun _ => "2024-01-01 10:00:00", none, none, fun s => s⟩ ⟨[], 0⟩
      ⟨"POST", "/todos", [], some ⟨0, "a", "", false, ""⟩⟩ = none ∧
    serve ⟨fun _ => "2024-01-01 10:00:00", none, none, fun s => s⟩ ⟨[], 0⟩
      ⟨"PUT", "/todos/update", [("id", "1")], some ⟨0, "a", "", false, ""⟩⟩ = none ∧
    serve ⟨fun _ => "2024-01-01 10:00:00", none, none, fun s => s⟩ ⟨[], 0⟩
      ⟨"DELETE", "/todos/delete", [("id", "1")], none⟩ = none :=
  ⟨by decide, by decide, by decide, rfl, rfl, rfl, rfl⟩

/-! ## Evaluations at inputs where the code departs from the specification -/

/-- C2: the invariant "no row has an empty title" is broken by updateTodo.
On a store whose only row has id 1 and title "a", a PUT with id=1 and the
body `{"completed": true}` (title absent) is answered success=true and
leaves the row with the empty title. -/
theorem updateTodo_persists_empty_title :
    Store.NoEmptyTitle ⟨[⟨1, "a", some "d", some false, some "2024-01-01 10:00:00"⟩], 1⟩ ∧
    (updateTodo ⟨fun _ => "2024-01-02 10:00:00", none, none, fun s => s⟩
        ⟨[⟨1, "a", some "d", some false, some "2024-01-01 10:00:00"⟩], 1⟩ ResponseWriter.new
        ⟨"PUT", "/api/todos/update", [("id", "1")], some ⟨0, "", "", true, ""⟩⟩).1
      = ⟨[⟨1, "", some "", some true, some "2024-01-01 10:00:00"⟩], 1⟩ ∧
    ¬ Store.NoEmptyTitle
      (updateTodo ⟨fun _ => "2024-01-02 10:00:00", none, none, fun s => s⟩
        ⟨[⟨1, "a", some "d", some false, some "2024-01-01 10:00:00"⟩], 1⟩ ResponseWriter.new
        ⟨"PUT", "/api/todos/update", [("id", "1")], some ⟨0, "", "", true, ""⟩⟩).1 ∧
    (updateTodo ⟨fun _ => "2024-01-02 10:00:00", none, none, fun s => s⟩
        ⟨[⟨1, "a", some "d", some false, some "2024-01-01 10:00:00"⟩], 1⟩ ResponseWriter.new
        ⟨"PUT", "/api/todos/update", [("id", "1")], some ⟨0, "", "", true, ""⟩⟩).2.body
      = [Chunk.json (.obj [("success", .bool true),
          ("data", .obj [("id", .num 1), ("title", .str ""), ("description", .str ""),
            ("completed", .bool true), ("created_at", .str "")])])] := by
  refine ⟨?_, ?_, ?_, rfl⟩
  · unfold Store.NoEmptyTitle; decide
  · decide
  · unfold Store.NoEmptyTitle; decide

/-- C3: a request on `/api/todos` with a method other than GET, POST and
OPTIONS is answered by the closure itself with status 405 and none of the
three cross-origin headers, whereas the same method-not-allowed reply of
`/api/todos/update` and `/api/todos/delete` carries all three. -/
theorem todos_route_405_lacks_cors :
    (todosRoute ⟨fun _ => "2024-01-01 10:00:00", none, none, fun s => s⟩ ⟨[], 0⟩ ResponseWriter.new
        ⟨"DELETE", "/api/todos", [], none⟩).2.statusCode = 405 ∧
    (todosRoute ⟨fun _ => "2024-01-01 10:00:00", none, none, fun s => s⟩ ⟨[], 0⟩ ResponseWriter.new
        ⟨"DELETE", "/api/todos", [], none⟩).2.header
      = [("Content-Type", "text/plain; charset=utf-8"), ("X-Content-Type-Options", "nosniff")] ∧
    ¬ HasCORS (todosRoute ⟨fun _ => "2024-01-01 10:00:00", none, none, fun s => s⟩ ⟨[], 0⟩ ResponseWriter.new
        ⟨"DELETE", "/api/todos", [], none⟩).2 ∧
    (∃ out, serve ⟨fun _ => "2024-01-01 10:00:00", none, none, fun s => s⟩ ⟨[], 0⟩
        ⟨"DELETE", "/api/todos", [], none⟩ = some out ∧
      out.2.getHeader "Access-Control-Allow-Origin" = "" ∧
      out.2.getHeader "Access-Control-Allow-Methods" = "" ∧
      out.2.getHeader "Access-Control-Allow-Headers" = "") ∧
    (updateRoute ⟨fun _ => "2024-01-01 10:00:00", none, none, fun s => s⟩ ⟨[], 0⟩ ResponseWriter.new
        ⟨"DELETE", "/api/todos/update", [], none⟩).2.statusCode = 405 ∧
    HasCORS (updateRoute ⟨fun _ => "2024-01-01 10:00:00", none, none, fun s => s⟩ ⟨[], 0⟩ ResponseWriter.new
        ⟨"DELETE", "/api/todos/update", [], none⟩).2 := by
  refine ⟨by decide, by decide, ?_, ⟨_, rfl, by decide, by decide, by decide⟩, by decide, ?_⟩
  · unfold HasCORS; decide
  · unfold HasCORS; decide

/-- C6: a GET to getTodos on a table with no rows, the query succeeding, is
answered `{"success":true,"data":null}`: the slice declared by
`var todos []Todo` is still nil when nothing was appended, `omitempty` does
not drop an interface that holds it, and a nil slice encodes as `null`. -/
theorem getTodos_empty_store_data_null (clock : Nat → String) (nextErr : Option Nat)
    (scanTime : String → String) (seq : Int) (w : ResponseWriter) (path : String)
    (query : List (String × String)) (body : Option Todo) :
    (getTodos ⟨clock, none, nextErr, scanTime⟩ ⟨[], seq⟩ w ⟨"GET", path, query, body⟩).2.body
      = w.body ++ [Chunk.json (.obj [("success", .bool true), ("data", .null)])] ∧
    JVal.field "data"
        (Response.toJSON ⟨true, "", .todos (scanAll ⟨clock, none, nextErr, scanTime⟩ [] .nil)⟩)
      = some .null ∧
    (getTodos ⟨clock, none, nextErr, scanTime⟩ ⟨[], seq⟩ w ⟨"GET", path, query, body⟩).1
      = ⟨[], seq⟩ := by
  have h : getTodos ⟨clock, none, nextErr, scanTime⟩ ⟨[], seq⟩ w ⟨"GET", path, query, body⟩
      = (⟨[], seq⟩, encode (enableCORS w) ⟨true, "", .todos .nil⟩) := by
    cases nextErr <;>
      simp [getTodos, Store.queryAll, orderByCreatedAtDesc, Env.delivered, scanAll]
  rw [h]
  refine ⟨?_, rfl, rfl⟩
  rw [encode_body, enableCORS_body]
  rfl

/-- C10: createTodo reads the clock twice, once for the INSERT and once for
the reply.  With the readings "2024-01-01 10:00:00" and then
"2024-01-01 10:00:01", the inserted row holds the first and the reply data
the second, so the created_at returned is not the created_at stored. -/
theorem createTodo_reply_createdAt_differs_from_row (nextErr : Option Nat)
    (scanTime : String → String) :
    (createTodo
        ⟨fun k => if k = 0 then "2024-01-01 10:00:00" else "2024-01-01 10:00:01", none,
          nextErr, scanTime⟩
        ⟨[], 0⟩ ResponseWriter.new
        ⟨"POST", "/api/todos", [], some ⟨0, "a", "", false, ""⟩⟩).1
      = ⟨[⟨1, "a", some "", some false, some "2024-01-01 10:00:00"⟩], 1⟩ ∧
    (createTodo
        ⟨fun k => if k = 0 then "2024-01-01 10:00:00" else "2024-01-01 10:00:01", none,
          nextErr, scanTime⟩
        ⟨[], 0⟩ ResponseWriter.new
        ⟨"POST", "/api/todos", [], some ⟨0, "a", "", false, ""⟩⟩).2.body
      = [Chunk.json (.obj [("success", .bool true),
          ("data", .obj [("id", .num 1), ("title", .str "a"), ("description", .str ""),
            ("completed", .bool false), ("created_at", .str "2024-01-01 10:00:01")])])] :=
  ⟨rfl, rfl⟩

/-- C5: two requests on a handler's own method are answered with status 200
and an envelope whose success is true, although the specification counts an
empty title and a store error as failures that give success=false.  A PUT
with id=1 whose body has no title is answered success=true
(updateTodo has no title check), and a GET during which stepping through
the rows fails at once is answered success=true with `data` null (getTodos
never reads `rows.Err()`). -/
theorem success_true_on_untitled_update_and_rows_error (clock : Nat → String)
    (scanTime : String → String) :
    Replies
      (updateTodo ⟨clock, none, none, scanTime⟩
        ⟨[⟨1, "a", some "d", some false, some "2024-01-01 10:00:00"⟩], 1⟩ ResponseWriter.new
        ⟨"PUT", "/api/todos/update", [("id", "1")], some ⟨0, "", "", true, ""⟩⟩).2
      ⟨true, "", .todo ⟨1, "", "", true, ""⟩⟩ ∧
    Response.toJSON ⟨true, "", .todo ⟨1, "", "", true, ""⟩⟩
      = .obj [("success", .bool true),
          ("data", .obj [("id", .num 1), ("title", .str ""), ("description", .str ""),
            ("completed", .bool true), ("created_at", .str "")])] ∧
    Replies
      (getTodos ⟨clock, none, some 0, scanTime⟩
        ⟨[⟨1, "a", some "d", some false, some "2024-01-01 10:00:00"⟩], 1⟩ ResponseWriter.new
        ⟨"GET", "/api/todos", [], none⟩).2
      ⟨true, "", .todos .nil⟩ ∧
    Response.toJSON ⟨true, "", .todos .nil⟩
      = .obj [("success", .bool true), ("data", .null)] :=
  ⟨⟨rfl, rfl, rfl⟩, rfl, ⟨rfl, rfl, rfl⟩, rfl⟩

/-! ## Supporting facts around the departures -/

/-- A successful create stores the first clock reading and returns the
second; the `id` and `created_at` of the request body are not used. -/
theorem createTodo_ok (env : Env) (st : Store) (w : ResponseWriter) (r : Request)
    (todo : Todo) (hm : r.method = "POST") (hb : r.body = some todo) (ht : todo.title ≠ "")
    (he : env.dbErr = none) (hfull : st.nextId ≤ maxRowid) :
    createTodo env st w r
      = (⟨st.rows ++ [⟨st.nextId, todo.title, some todo.description, some todo.completed,
            some (env.clock 0)⟩], st.nextId⟩,
         encode (enableCORS w)
           ⟨true, "", .todo ⟨st.nextId, todo.title, todo.description, todo.completed,
             env.clock 1⟩⟩) := by
  simp [createTodo, hm, hb, ht, Store.insert, he, hfull]

/-- When both clock readings of a successful create agree, the reply carries
the created_at that was stored. -/
theorem createTodo_same_reading (env : Env) (st : Store) (w : ResponseWriter) (r : Request)
    (todo : Todo) (hm : r.method = "POST") (hb : r.body = some todo) (ht : todo.title ≠ "")
    (he : env.dbErr = none) (hfull : st.nextId ≤ maxRowid)
    (hc : env.clock 1 = env.clock 0) :
    ∃ row, (createTodo env st w r).1.rows = st.rows ++ [row] ∧
      row.createdAt = some (env.clock 0) ∧
      (createTodo env st w r).2
        = encode (enableCORS w)
            ⟨true, "", .todo ⟨row.id, todo.title, todo.description, todo.completed,
              env.clock 0⟩⟩ := by
  rw [createTodo_ok env st w r todo hm hb ht he hfull, hc]
  exact ⟨_, rfl, rfl, rfl⟩

/-- The handlers other than updateTodo keep the invariant that no row has an
empty title. -/
theorem noEmptyTitle_kept_outside_update (env : Env) (st : Store) (w : ResponseWriter)
    (r : Request) (h : st.NoEmptyTitle) :
    (createTodo env st w r).1.NoEmptyTitle ∧ (getTodos env st w r).1.NoEmptyTitle ∧
    (deleteTodo env st w r).1.NoEmptyTitle := by
  refine ⟨?_, ?_, ?_⟩
  · unfold createTodo
    by_cases hm : r.method = "POST"
    · simp only [hm, ne_eq, not_true_eq_false, if_false]
      cases hbody : r.body with
      | none => exact h
      | some todo =>
        by_cases ht : todo.title = ""
        · simp only [ht, if_true]; exact h
        · simp only [ht, if_false]
          cases he : env.dbErr with
          | some e => simp only [Store.insert, he]; exact h
          | none =>
            by_cases hfull : st.nextId ≤ maxRowid
            · simp only [Store.insert, he, hfull, if_true]
              intro row hrow
              rcases List.mem_append.mp hrow with h1 | h1
              · exact h row h1
              · rw [List.mem_singleton] at h1
                rw [h1]; exact ht
            · simp only [Store.insert, he, hfull, if_false]; exact h
    · simp only [hm, ne_eq, not_false_eq_true, if_true]; exact h
  · unfold getTodos
    by_cases hm : r.method = "GET"
    · simp only [hm, ne_eq, not_true_eq_false, if_false]
      cases he : env.dbErr with
      | some e => simp only [Store.queryAll, he]; exact h
      | none => simp only [Store.queryAll, he]; exact h
    · simp only [hm, ne_eq, not_false_eq_true, if_true]; exact h
  · unfold deleteTodo
    by_cases hm : r.method = "DELETE"
    · simp only [hm, ne_eq, not_true_eq_false, if_false]
      by_cases hq : r.queryGet "id" = ""
      · simp only [hq, if_true]; exact h
      · simp only [hq, if_false]
        cases ha : atoi (r.queryGet "id") with
        | none => exact h
        | some id =>
          cases he : env.dbErr with
          | some e => simp only [Store.delete, he]; exact h
          | none =>
            simp only [Store.delete, he]
            intro row hrow
            exact h row (List.mem_filter.mp hrow).1
    · simp only [hm, ne_eq, not_false_eq_true, if_true]; exact h

/-- An update whose body has a non-empty title keeps the invariant. -/
theorem noEmptyTitle_kept_by_titled_update (env : Env) (st : Store) (w : ResponseWriter)
    (r : Request) (h : st.NoEmptyTitle) (ht : ∀ todo, r.body = some todo → todo.title ≠ "") :
    (updateTodo env st w r).1.NoEmptyTitle := by
  unfold updateTodo
  by_cases hm : r.method = "PUT"
  · simp only [hm, ne_eq, not_true_eq_false, if_false]
    by_cases hq : r.queryGet "id" = ""
    · simp only [hq, if_true]; exact h
    · simp only [hq, if_false]
      cases ha : atoi (r.queryGet "id") with
      | none => exact h
      | some id =>
        cases hbody : r.body with
        | none => exact h
        | some todo =>
          cases he : env.dbErr with
          | some e => simp only [Store.update, he]; exact h
          | none =>
            simp only [Store.update, he]
            intro row hrow
            obtain ⟨old, hold, heq⟩ := List.mem_map.mp hrow
            by_cases hid : old.id = id
            · rw [if_pos hid] at heq
              rw [← heq]
              exact ht todo hbody
            · rw [if_neg hid] at heq
              rw [← heq]
              exact h old hold
  · simp only [hm, ne_eq, not_false_eq_true, if_true]; exact h

theorem hasCORS_encode (resp : Response) :
    HasCORS (encode (enableCORS ResponseWriter.new) resp) :=
  ⟨rfl, rfl, rfl⟩

theorem hasCORS_httpError :
    HasCORS (httpError (enableCORS ResponseWriter.new) "Method not allowed" 405) := by
  unfold HasCORS; decide

theorem hasCORS_handleOptions : HasCORS (handleOptions ResponseWriter.new) :=
  ⟨rfl, rfl, rfl⟩

/-- Every reply of the four handlers, the method-not-allowed reply included,
carries the three cross-origin headers. -/
theorem handlers_carry_cors (env : Env) (st : Store) (r : Request) :
    HasCORS (createTodo env st ResponseWriter.new r).2 ∧
    HasCORS (getTodos env st ResponseWriter.new r).2 ∧
    HasCORS (updateTodo env st ResponseWriter.new r).2 ∧
    HasCORS (deleteTodo env st ResponseWriter.new r).2 := by
  refine ⟨?_, ?_, ?_, ?_⟩
  · unfold createTodo
    by_cases hm : r.method = "POST"
    · simp only [hm, ne_eq, not_true_eq_false, if_false]
      cases r.body with
      | none => exact hasCORS_encode _
      | some todo =>
        by_cases ht : todo.title = ""
        · simp only [ht, if_true]; exact hasCORS_encode _
        · simp only [ht, if_false]
          cases he : env.dbErr with
          | some e => simp only [Store.insert, he]; exact hasCORS_encode _
          | none =>
            by_cases hfull : st.nextId ≤ maxRowid
            · simp only [Store.insert, he, hfull, if_true]; exact hasCORS_encode _
            · simp only [Store.insert, he, hfull, if_false]; exact hasCORS_encode _
    · simp only [hm, ne_eq, not_false_eq_true, if_true]; exact hasCORS_httpError
  · unfold getTodos
    by_cases hm : r.method = "GET"
    · simp only [hm, ne_eq, not_true_eq_false, if_false]
      cases he : env.dbErr with
      | some e => simp only [Store.queryAll, he]; exact hasCORS_encode _
      | none => simp only [Store.queryAll, he]; exact hasCORS_encode _
    · simp only [hm, ne_eq, not_false_eq_true, if_true]; exact hasCORS_httpError
  · unfold updateTodo
    by_cases hm : r.method = "PUT"
    · simp only [hm, ne_eq, not_true_eq_false, if_false]
      by_cases hq : r.queryGet "id" = ""
      · simp only [hq, if_true]; exact hasCORS_encode _
      · simp only [hq, if_false]
        cases atoi (r.queryGet "id") with
        | none => exact hasCORS_encode _
        | some id =>
          cases r.body with
          | none => exact hasCORS_encode _
          | some todo =>
            cases he : env.dbErr with
            | some e => simp only [Store.update, he]; exact hasCORS_encode _
            | none => simp only [Store.update, he]; exact hasCORS_encode _
    · simp only [hm, ne_eq, not_false_eq_true, if_true]; exact hasCORS_httpError
  · unfold deleteTodo
    by_cases hm : r.method = "DELETE"
    · simp only [hm, ne_eq, not_true_eq_false, if_false]
      by_cases hq : r.queryGet "id" = ""
      · simp only [hq, if_true]; exact hasCORS_encode _
      · simp only [hq, if_false]
        cases atoi (r.queryGet "id") with
        | none => exact hasCORS_encode _
        | some id =>
          cases he : env.dbErr with
          | some e => simp only [Store.delete, he]; exact hasCORS_encode _
          | none => simp only [Store.delete, he]; exact hasCORS_encode _
    · simp only [hm, ne_eq, not_false_eq_true, if_true]; exact hasCORS_httpError

/-- The closures on `/api/todos/update` and `/api/todos/delete` reply with the
three cross-origin headers for every method; the closure on `/api/todos`
does so for GET, POST and OPTIONS. -/
theorem routes_carry_cors (env : Env) (st : Store) (r : Request) :
    HasCORS (updateRoute env st ResponseWriter.new r).2 ∧
    HasCORS (deleteRoute env st ResponseWriter.new r).2 ∧
    (r.method = "GET" ∨ r.method = "POST" ∨ r.method = "OPTIONS" →
      HasCORS (todosRoute env st ResponseWriter.new r).2) := by
  obtain ⟨hc, hg, hu, hd⟩ := handlers_carry_cors env st r
  refine ⟨?_, ?_, ?_⟩
  · unfold updateRoute
    by_cases ho : r.method = "OPTIONS"
    · rw [if_pos ho]; exact hasCORS_handleOptions
    · rw [if_neg ho]; exact hu
  · unfold deleteRoute
    by_cases ho : r.method = "OPTIONS"
    · rw [if_pos ho]; exact hasCORS_handleOptions
    · rw [if_neg ho]; exact hd
  · intro hmeth
    unfold todosRoute
    by_cases h1 : r.method = "GET"
    · rw [if_pos h1]; exact hg
    · rw [if_neg h1]
      by_cases h2 : r.method = "POST"
      · rw [if_pos h2]; exact hc
      · rw [if_neg h2]
        by_cases h3 : r.method = "OPTIONS"
        · rw [if_pos h3]; exact hasCORS_handleOptions
        · rcases hmeth with h | h | h
          · exact absurd h h1
          · exact absurd h h2
          · exact absurd h h3

/-- A list that follows a create returns, for the new row, the rendering by
`rows.Scan` of the created_at that was stored, the first clock reading. -/
theorem list_after_create_returns_rendered_reading (clock : Nat → String)
    (scanTime : String → String) :
    (getTodos ⟨clock, none, none, scanTime⟩
        ⟨[⟨1, "a", some "", some false, some "2024-01-01 10:00:00"⟩], 1⟩
        ResponseWriter.new ⟨"GET", "/api/todos", [], none⟩).2.body
      = [Chunk.json (.obj [("success", .bool true),
          ("data", .arr [.obj [("id", .num 1), ("title", .str "a"), ("description", .str ""),
            ("completed", .bool false),
            ("created_at", .str (scanTime "2024-01-01 10:00:00"))]])])] :=
  rfl

/-- A GET whose `db.Query` succeeds is answered success=true with the rows
that were stepped through before `rows.Next()` returned false, whether it
stopped at the end of the result set or at an error. -/
theorem getTodos_ok (env : Env) (st : Store) (w : ResponseWriter) (r : Request)
    (hm : r.method = "GET") (he : env.dbErr = none) :
    getTodos env st w r
      = (st, encode (enableCORS w)
          ⟨true, "", .todos (scanAll env (env.delivered (orderByCreatedAtDesc st.rows)) .nil)⟩) := by
  simp [getTodos, hm, Store.queryAll, he]

/-- Once the largest rowid has been assigned, a create is refused by the
store and answered success=false; the store is unchanged. -/
theorem createTodo_full (clock : Nat → String) (nextErr : Option Nat)
    (scanTime : String → String) :
    (createTodo ⟨clock, none, nextErr, scanTime⟩ ⟨[], maxRowid⟩ ResponseWriter.new
        ⟨"POST", "/api/todos", [], some ⟨0, "a", "", false, ""⟩⟩).1 = ⟨[], maxRowid⟩ ∧
    (createTodo ⟨clock, none, nextErr, scanTime⟩ ⟨[], maxRowid⟩ ResponseWriter.new
        ⟨"POST", "/api/todos", [], some ⟨0, "a", "", false, ""⟩⟩).2.body
      = [Chunk.json (.obj [("success", .bool false),
          ("message", .str "database or disk is full")])] :=
  ⟨rfl, rfl⟩

end TodoApp
